import Mathlib

/-!
Shallow embedding of the qbit client's session/authentication state machine
and request-retry protocol (src/lib.rs: `LoginState`, `Qbit::login`,
`Qbit::request`; src/ext.rs: `ResponseExt::map_status`, `Cookie::from_response`;
src/model/mod.rs: `Display for Sep`).

HTTP transport is modelled as an oracle giving, for each successive network
call, either a transport-level error (a numeric code standing for the
`reqwest::Error`) or a `Response` (status code plus optional `Set-Cookie`
header). Rust panics (`expect`/`unreachable!`) are modelled as an explicit
`panic` outcome. Instrumentation counters (number of login network calls,
number of main HTTP calls, trace of `force` flags passed to `login`) are
threaded through the session value so that call-counting properties can be
stated; they do not influence control flow.
-/

/-- Username/password pair (src/model/mod.rs `Credential`). -/
structure Credential where
  username : String
  password : String
deriving DecidableEq, Repr

/-- src/lib.rs `LoginState`. -/
inductive LoginState where
  | CookieProvided (cookie : String)
  | NotLoggedIn (credential : Credential)
  | LoggedIn (cookie : String) (credential : Credential)
deriving DecidableEq, Repr

/-- src/lib.rs `LoginState::as_cookie`. -/
def LoginState.as_cookie : LoginState → Option String
  | .CookieProvided cookie => some cookie
  | .NotLoggedIn _ => none
  | .LoggedIn cookie _ => some cookie

/-- src/lib.rs `LoginState::as_credential`. -/
def LoginState.as_credential : LoginState → Option Credential
  | .CookieProvided _ => none
  | .NotLoggedIn credential => some credential
  | .LoggedIn _ credential => some credential

/-- src/lib.rs `LoginState::add_cookie`. -/
def LoginState.add_cookie : LoginState → String → LoginState
  | s@(.CookieProvided _), _ => s
  | .NotLoggedIn credential, cookie => .LoggedIn cookie credential
  | .LoggedIn _ credential, cookie => .LoggedIn cookie credential

/-- The errors defined and returned by the remote API (src/lib.rs `ApiError`). -/
inductive ApiError where
  | IpBanned
  | NotLoggedIn
  | TorrentNotFound
  | TorrentNameEmpty
  | InvalidTrackerUrl
  | ConflictTrackerUrl
  | InvalidPeers
  | QueueingDisabled
  | MetaNotDownloadedOrIdNotFound
  | SavePathEmpty
  | NoWriteAccess
  | UnableToCreateDir
  | CategoryNotFound
  | CategoryEditingFailed
  | InvalidPath
deriving DecidableEq, Repr

/-- src/lib.rs `Error`. `HttpError` wraps the underlying transport error,
modelled by a numeric code; `SerdeJsonError` likewise carries a message. -/
inductive Error where
  | HttpError (code : Nat)
  | BadResponse (explain : String)
  | UnknownHttpCode (code : Nat)
  | NonAsciiHeader
  | ApiError (e : ApiError)
  | SerdeJsonError (msg : String)
deriving DecidableEq, Repr

/-- An HTTP response, reduced to the parts the session core inspects:
the status code and the optional `Set-Cookie` header value. -/
structure Response where
  status : Nat
  setCookie : Option String
deriving DecidableEq, Repr

/-- `StatusCode::is_success` of the reqwest crate: 200..=299. -/
def isSuccess (status : Nat) : Bool := 200 ≤ status && status < 300

/-- `HeaderValue::to_str` succeeds only on visible-ASCII header bytes. -/
def isVisibleAscii (c : Char) : Bool := 32 ≤ c.toNat && c.toNat ≤ 126

/-- src/ext.rs `struct Cookie(pub String)`. -/
structure Cookie where
  val : String
deriving DecidableEq, Repr

/-- src/ext.rs `Cookie::from_response`: take the `Set-Cookie` header or fail
with `BadResponse`; a non-ASCII header value fails with `NonAsciiHeader`. -/
def Cookie.from_response (response : Response) : Except Error Cookie :=
  match response.setCookie with
  | none => .error (.BadResponse "Failed to extract cookie from response")
  | some v =>
    if v.data.all isVisibleAscii then .ok ⟨v⟩ else .error .NonAsciiHeader

/-- src/ext.rs `ResponseExt::map_status`: a 2xx status passes the response
through; otherwise the operation-specific classifier `f` is consulted first,
and if it yields nothing, 403 becomes `NotLoggedIn` and any other status
passes the response through as success. -/
def Response.map_status (response : Response) (f : Nat → Option Error) :
    Except Error Response :=
  if isSuccess response.status then .ok response
  else
    match f response.status with
    | some err => .error err
    | none =>
      if response.status = 403 then .error (.ApiError .NotLoggedIn)
      else .ok response

/-- src/ext.rs `ResponseExt::end`, restricted to its status-classification
step (the subsequent body decoding is out of scope): every non-2xx status is
classified as `UnknownHttpCode`. -/
def Response.end' (response : Response) : Except Error Response :=
  response.map_status (fun c => some (.UnknownHttpCode c))

/-- src/ext.rs `TORRENT_NOT_FOUND`: per-operation classifier mapping 404 to
`TorrentNotFound`. -/
def TORRENT_NOT_FOUND : Nat → Option Error :=
  fun s => if s = 404 then some (.ApiError .TorrentNotFound) else none

/-- Outcome of a Rust call that may return `Ok`, return `Err`, or panic. -/
inductive RustResult (α : Type) where
  | ok (val : α)
  | err (e : Error)
  | panic (msg : String)
deriving DecidableEq, Repr

/-- Transport oracle: the result of the i-th network login call and of the
i-th main HTTP call (counted separately), each either a transport error code
or a response. -/
structure Transport where
  loginResp : Nat → Except Nat Response
  reqResp : Nat → Except Nat Response

/-- The client's mutable session state together with instrumentation:
the trace of `force` flags passed to `login`, the number of network login
calls performed, and the number of main HTTP calls performed. -/
structure Sess where
  state : LoginState
  loginForces : List Bool
  loginCalls : Nat
  httpCalls : Nat
deriving Repr

/-- A freshly constructed client session: no calls performed yet. -/
def Sess.init (st : LoginState) : Sess := ⟨st, [], 0, 0⟩

/-- src/lib.rs `Qbit::login`. If `force` is false and a cookie is cached,
no network call happens. Otherwise the credential is read (`expect` panics
when absent), one network login call is made, its status classified
(403 ↦ `IpBanned`), the cookie extracted from the response, and recorded
via `add_cookie`. -/
def Qbit.login (t : Transport) (force : Bool) (s : Sess) :
    RustResult Unit × Sess :=
  let s := { s with loginForces := s.loginForces ++ [force] }
  let re_login := force || (s.state.as_cookie).isNone
  if re_login then
    match s.state.as_credential with
    | none => (.panic "Credential should be set if cookie is not set", s)
    | some _credential =>
      let s1 := { s with loginCalls := s.loginCalls + 1 }
      match t.loginResp s.loginCalls with
      | .error code => (.err (.HttpError code), s1)
      | .ok resp =>
        match resp.map_status
            (fun code => if code = 403 then some (.ApiError .IpBanned) else none) with
        | .error e => (.err e, s1)
        | .ok resp2 =>
          match Cookie.from_response resp2 with
          | .error e => (.err e, s1)
          | .ok c => (.ok (), { s1 with state := s1.state.add_cookie c.val })
  else (.ok (), s)

/-- Outcome of one iteration of the retry loop in `Qbit::request`:
either the loop continues (the `NotLoggedIn` arm) or it returns. -/
inductive IterOutcome where
  | retry
  | done (r : RustResult Response)
deriving DecidableEq, Repr

/-- One iteration (index `i`) of the loop body of src/lib.rs `Qbit::request`:
`login(i != 0)`, propagate its failure; attach the cached cookie (`expect`
panics when absent); send the HTTP call; classify the status
(403 ↦ `NotLoggedIn`); a `NotLoggedIn` error retries, anything else returns. -/
def Qbit.requestIter (t : Transport) (i : Nat) (s : Sess) :
    IterOutcome × Sess :=
  match Qbit.login t (i != 0) s with
  | (.panic msg, s1) => (.done (.panic msg), s1)
  | (.err e, s1) => (.done (.err e), s1)
  | (.ok _, s1) =>
    match s1.state.as_cookie with
    | none => (.done (.panic "Cookie should be set after login"), s1)
    | some _cookie =>
      let s2 := { s1 with httpCalls := s1.httpCalls + 1 }
      match t.reqResp s1.httpCalls with
      | .error code => (.done (.err (.HttpError code)), s2)
      | .ok resp =>
        match resp.map_status
            (fun code => if code = 403 then some (.ApiError .NotLoggedIn) else none) with
        | .error (.ApiError .NotLoggedIn) => (.retry, s2)
        | .error e => (.done (.err e), s2)
        | .ok resp2 => (.done (.ok resp2), s2)

/-- The `for i in 0..3` loop of `Qbit::request`, as fuelled recursion:
when the remaining iterations run out the loop falls through to
`Err(ApiError::NotLoggedIn)`. -/
def Qbit.requestFrom (t : Transport) : Nat → Nat → Sess → RustResult Response × Sess
  | _, 0, s => (.err (.ApiError .NotLoggedIn), s)
  | i, fuel + 1, s =>
    match Qbit.requestIter t i s with
    | (.retry, s1) => Qbit.requestFrom t (i + 1) fuel s1
    | (.done r, s1) => (r, s1)

/-- src/lib.rs `Qbit::request`: the loop runs for i = 0, 1, 2. -/
def Qbit.request (t : Transport) (s : Sess) : RustResult Response × Sess :=
  Qbit.requestFrom t 0 3 s

/-- src/model/mod.rs `impl Display for Sep<T, C>`: the empty vector renders
empty, a singleton renders its element, and otherwise each further element is
preceded by the separator character. `showT` stands for the `Display`
rendering of the element type. -/
def Sep.display (showT : α → String) (c : Char) : List α → String
  | [] => ""
  | [x] => showT x
  | x :: xs => xs.foldl (fun acc y => acc ++ String.singleton c ++ showT y) (showT x)

/-- A state that has just recorded a cookie via `add_cookie` always carries a
cookie afterwards. -/
lemma add_cookie_as_cookie_isSome (s : LoginState) (ck : String) :
    ((s.add_cookie ck).as_cookie).isSome = true := by
  cases s <;> simp [LoginState.add_cookie, LoginState.as_cookie]

/-- C6: applying `add_cookie` (the `record_token` transition) to a
`CookieProvided` state leaves the state exactly unchanged: the caller-supplied
token is never overwritten. -/
theorem c6_cookie_provided_sticky (ck tok : String) :
    (LoginState.CookieProvided ck).add_cookie tok = .CookieProvided ck := rfl

/-- C5: on a credential-bearing state (`NotLoggedIn` or `LoggedIn`),
`add_cookie` yields a `LoggedIn` state carrying the new token and the
credential already stored, and applying it again with a different token again
yields `LoggedIn` with the newest token and the same credential. -/
theorem c5_record_token_upgrades (s : LoginState) (c : Credential) (t1 t2 : String)
    (h : s.as_credential = some c) :
    s.add_cookie t1 = .LoggedIn t1 c ∧
    (s.add_cookie t1).add_cookie t2 = .LoggedIn t2 c := by
  cases s with
  | CookieProvided ck => simp [LoginState.as_credential] at h
  | NotLoggedIn cr =>
    simp [LoginState.as_credential] at h
    subst h
    simp [LoginState.add_cookie]
  | LoggedIn ck cr =>
    simp [LoginState.as_credential] at h
    subst h
    simp [LoginState.add_cookie]

/-- Witness for C5 at a concrete state and concrete tokens. -/
theorem c5_witness :
    (LoginState.NotLoggedIn ⟨"u", "p"⟩).add_cookie "t1" = .LoggedIn "t1" ⟨"u", "p"⟩ ∧
    ((LoginState.NotLoggedIn ⟨"u", "p"⟩).add_cookie "t1").add_cookie "t2"
      = .LoggedIn "t2" ⟨"u", "p"⟩ :=
  c5_record_token_upgrades _ _ "t1" "t2" rfl

/-- C4: when a cookie is already cached, `login(false)` returns success,
performs zero network login calls (`loginCalls` unchanged) and leaves the
session state unchanged; only the instrumentation trace of force flags grows. -/
theorem c4_noop_login (t : Transport) (s : Sess) (h : ((s.state.as_cookie)).isSome = true) :
    Qbit.login t false s = (.ok (), { s with loginForces := s.loginForces ++ [false] }) := by
  obtain ⟨ck, hck⟩ := Option.isSome_iff_exists.mp h
  simp [Qbit.login, hck]

/-- Witness for C4: a client holding a caller-supplied cookie. -/
theorem c4_witness :
    Qbit.login ⟨fun _ => .error 0, fun _ => .error 0⟩ false (Sess.init (.CookieProvided "ck"))
      = (.ok (), { Sess.init (.CookieProvided "ck") with loginForces := [false] }) := by
  simpa using c4_noop_login ⟨fun _ => .error 0, fun _ => .error 0⟩
    (Sess.init (.CookieProvided "ck")) rfl

/-- C2 counterexample: a 418 response checked with the `TORRENT_NOT_FOUND`
classifier (which has no entry for 418) is passed through by `map_status` as
success; it is not turned into the `UnknownHttpCode 418` error the claim
announces. -/
theorem c2_counterexample :
    Response.map_status ⟨418, none⟩ TORRENT_NOT_FOUND = .ok ⟨418, none⟩ ∧
    Response.map_status ⟨418, none⟩ TORRENT_NOT_FOUND ≠ .error (.UnknownHttpCode 418) := by
  constructor
  · rfl
  · simp [Response.map_status, TORRENT_NOT_FOUND, isSuccess]

/-- C2 (amended): for a non-2xx response the operation-specific classifier
takes precedence: a status it maps becomes that domain error. With no
classifier entry and a status other than 403, `map_status` returns the
response as success; `UnknownHttpCode` is produced only when the classifier
itself yields it, as the `end` helper does for every non-2xx status. -/
theorem c2_amended_precedence (r : Response) (f : Nat → Option Error)
    (h : isSuccess r.status = false) :
    (∀ e, f r.status = some e → r.map_status f = .error e) ∧
    (f r.status = none → r.status ≠ 403 → r.map_status f = .ok r) ∧
    r.end' = .error (.UnknownHttpCode r.status) := by
  refine ⟨?_, ?_, ?_⟩
  · intro e he
    simp [Response.map_status, h, he]
  · intro hn h403
    simp [Response.map_status, h, hn, h403]
  · simp [Response.end', Response.map_status, h]

/-- Witness for C2 (amended): a 409 response with a classifier mapping 409
to a domain error yields that domain error. -/
theorem c2_amended_witness :
    Response.map_status ⟨409, none⟩
        (fun s => if s = 409 then some (.ApiError .ConflictTrackerUrl) else none)
      = .error (.ApiError .ConflictTrackerUrl) :=
  (c2_amended_precedence ⟨409, none⟩ _ rfl).1 _ rfl

/-- C3 counterexample: on a `CookieProvided` state, `login(true)` panics on
the missing credential (`expect` in `Qbit::login`) and performs zero network
login calls, refuting the claim for that state. -/
theorem c3_counterexample :
    Qbit.login ⟨fun _ => .ok ⟨200, some "SID=1"⟩, fun _ => .ok ⟨403, none⟩⟩ true
        (Sess.init (.CookieProvided "ck"))
      = (.panic "Credential should be set if cookie is not set",
         { Sess.init (.CookieProvided "ck") with loginForces := [true] }) := rfl

/-- C3 (amended): on a credential-bearing state (`NotLoggedIn` or
`LoggedIn`), `login(true)` performs exactly one network login call and never
panics: the call is not skipped because of a cached token. On
`CookieProvided`, `login(true)` instead panics before any network call (see
the counterexample). -/
theorem c3_forced_login_one_call (t : Transport) (s : Sess) (c : Credential)
    (h : s.state.as_credential = some c) :
    (Qbit.login t true s).2.loginCalls = s.loginCalls + 1 ∧
    ∀ m, (Qbit.login t true s).1 ≠ .panic m := by
  constructor
  · simp only [Qbit.login, h]
    split
    · split
      · rfl
      · split
        · rfl
        · split <;> rfl
    · simp_all
  · intro m
    simp only [Qbit.login, h]
    split
    · split
      · simp
      · split
        · simp
        · split <;> simp
    · simp_all

/-- Witness for C3 (amended) at a concrete credential-bearing state. -/
theorem c3_forced_witness :
    (Qbit.login ⟨fun _ => .ok ⟨200, some "SID=1"⟩, fun _ => .ok ⟨403, none⟩⟩ true
        (Sess.init (.NotLoggedIn ⟨"u", "p"⟩))).2.loginCalls
      = (Sess.init (.NotLoggedIn ⟨"u", "p"⟩)).loginCalls + 1 :=
  (c3_forced_login_one_call ⟨fun _ => .ok ⟨200, some "SID=1"⟩, fun _ => .ok ⟨403, none⟩⟩
    (Sess.init (.NotLoggedIn ⟨"u", "p"⟩)) ⟨"u", "p"⟩ rfl).1

/-- C8: when the network login call succeeds at the transport level with a
2xx status but the response carries no `Set-Cookie` header, `login` fails
with the `BadResponse` error ("Failed to extract cookie from response") and
records no token: the session state is unchanged. -/
theorem c8_missing_cookie_bad_response (t : Transport) (s : Sess) (c : Credential) (r : Response)
    (hcred : s.state.as_credential = some c)
    (hresp : t.loginResp s.loginCalls = .ok r)
    (hok : isSuccess r.status = true)
    (hnone : r.setCookie = none) :
    Qbit.login t true s =
      (.err (.BadResponse "Failed to extract cookie from response"),
       { s with loginForces := s.loginForces ++ [true], loginCalls := s.loginCalls + 1 }) := by
  simp [Qbit.login, hcred, hresp, Response.map_status, hok, Cookie.from_response, hnone]

/-- Witness for C8: a 200 login response with no `Set-Cookie` header. -/
theorem c8_witness :
    Qbit.login ⟨fun _ => .ok ⟨200, none⟩, fun _ => .ok ⟨200, none⟩⟩ true
        (Sess.init (.NotLoggedIn ⟨"u", "p"⟩))
      = (.err (.BadResponse "Failed to extract cookie from response"),
         { Sess.init (.NotLoggedIn ⟨"u", "p"⟩) with loginForces := [true], loginCalls := 1 }) := by
  simpa using c8_missing_cookie_bad_response
    ⟨fun _ => .ok ⟨200, none⟩, fun _ => .ok ⟨200, none⟩⟩
    (Sess.init (.NotLoggedIn ⟨"u", "p"⟩)) ⟨"u", "p"⟩ ⟨200, none⟩ rfl rfl (by decide) rfl

/-- C7: if the network login call made inside `request` returns status 403,
`login` fails with the `IpBanned` error and does not change the session
state, and the retry loop of `request` returns that error at once: no HTTP
call is made and no further attempt is consumed, at any attempt index and
any remaining attempt budget. -/
theorem c7_ip_banned_short_circuit (t : Transport) (i fuel : Nat) (s : Sess) (r : Response)
    (hr : t.loginResp s.loginCalls = .ok r) (h403 : r.status = 403)
    (hcred : ((s.state.as_credential)).isSome = true)
    (hfo : ((i != 0) || ((s.state.as_cookie)).isNone) = true) :
    (Qbit.login t (i != 0) s).1 = .err (.ApiError .IpBanned) ∧
    (Qbit.login t (i != 0) s).2.state = s.state ∧
    Qbit.requestFrom t i (fuel + 1) s
      = (.err (.ApiError .IpBanned), (Qbit.login t (i != 0) s).2) ∧
    (Qbit.requestFrom t i (fuel + 1) s).2.httpCalls = s.httpCalls := by
  obtain ⟨c, hc⟩ := Option.isSome_iff_exists.mp hcred
  have hlogin : Qbit.login t (i != 0) s = (.err (.ApiError .IpBanned),
      { s with loginForces := s.loginForces ++ [i != 0], loginCalls := s.loginCalls + 1 }) := by
    simp [Qbit.login, hfo, hc, hr, Response.map_status, isSuccess, h403]
  have hiter : Qbit.requestIter t i s = (.done (.err (.ApiError .IpBanned)),
      { s with loginForces := s.loginForces ++ [i != 0], loginCalls := s.loginCalls + 1 }) := by
    simp [Qbit.requestIter, hlogin]
  refine ⟨by simp [hlogin], by simp [hlogin], ?_, ?_⟩
  · simp [Qbit.requestFrom, hiter, hlogin]
  · simp [Qbit.requestFrom, hiter]

/-- Witness for C7: first attempt of a fresh credential-bearing client
against a transport whose login endpoint returns 403. -/
theorem c7_witness :
    (Qbit.login ⟨fun _ => .ok ⟨403, none⟩, fun _ => .ok ⟨200, none⟩⟩ ((0 : Nat) != 0)
        (Sess.init (.NotLoggedIn ⟨"u", "p"⟩))).1 = .err (.ApiError .IpBanned) ∧
    (Qbit.requestFrom ⟨fun _ => .ok ⟨403, none⟩, fun _ => .ok ⟨200, none⟩⟩ 0 (2 + 1)
        (Sess.init (.NotLoggedIn ⟨"u", "p"⟩))).2.httpCalls
      = (Sess.init (.NotLoggedIn ⟨"u", "p"⟩)).httpCalls :=
  ⟨(c7_ip_banned_short_circuit ⟨fun _ => .ok ⟨403, none⟩, fun _ => .ok ⟨200, none⟩⟩ 0 2
      (Sess.init (.NotLoggedIn ⟨"u", "p"⟩)) ⟨403, none⟩ rfl rfl rfl rfl).1,
   (c7_ip_banned_short_circuit ⟨fun _ => .ok ⟨403, none⟩, fun _ => .ok ⟨200, none⟩⟩ 0 2
      (Sess.init (.NotLoggedIn ⟨"u", "p"⟩)) ⟨403, none⟩ rfl rfl rfl rfl).2.2.2⟩

/-- The only panic `Qbit::login` can raise is the missing-credential
`expect`. -/
lemma login_panic_msg (t : Transport) (fo : Bool) (s : Sess) (m : String)
    (h : (Qbit.login t fo s).1 = .panic m) :
    m = "Credential should be set if cookie is not set" := by
  rcases hx : Qbit.login t fo s with ⟨res, s1⟩
  rw [hx] at h
  have hres : res = .panic m := h
  subst hres
  simp only [Qbit.login] at hx
  split at hx
  · split at hx
    · injection hx with h1 h2
      injection h1 with h3
      exact h3.symm
    · split at hx
      · simp at hx
      · split at hx
        · simp at hx
        · split at hx <;> simp at hx
  · simp at hx

/-- Whenever `Qbit::login` returns `Ok`, the resulting state carries a
cookie. -/
lemma login_ok_cookie (t : Transport) (fo : Bool) (s : Sess)
    (h : (Qbit.login t fo s).1 = .ok ()) :
    (((Qbit.login t fo s).2).state.as_cookie).isSome = true := by
  rcases hx : Qbit.login t fo s with ⟨res, s1⟩
  rw [hx] at h
  have hres : res = .ok () := h
  subst hres
  simp only [Qbit.login] at hx
  split at hx
  · split at hx
    · simp at hx
    · split at hx
      · simp at hx
      · split at hx
        · simp at hx
        · split at hx
          · simp at hx
          · injection hx with h1 h2
            subst h2
            simp [add_cookie_as_cookie_isSome]
  · injection hx with h1 h2
    subst h2
    rename_i hcond
    simp only [Bool.or_eq_true, not_or, Bool.not_eq_true] at hcond
    simp only []
    obtain ⟨-, hnone⟩ := hcond
    simp_all [Option.isNone_eq_false_iff, Option.isSome_iff_ne_none]

/-- The only panic one iteration of the retry loop can raise is the
missing-credential one: the cookie `expect` after a successful login never
fires. -/
lemma requestIter_panic_msg (t : Transport) (i : Nat) (s : Sess) (m : String)
    (h : (Qbit.requestIter t i s).1 = .done (.panic m)) :
    m = "Credential should be set if cookie is not set" := by
  rcases hx : Qbit.requestIter t i s with ⟨out, s2⟩
  rw [hx] at h
  have hout : out = .done (.panic m) := h
  subst hout
  simp only [Qbit.requestIter] at hx
  split at hx
  · rename_i s1 msg heq
    injection hx with h1 h2
    injection h1 with h3
    injection h3 with h4
    subst h4
    exact login_panic_msg t (i != 0) s s1 (by rw [heq])
  · simp at hx
  · rename_i s1 u heq
    split at hx
    · rename_i hnone
      have := login_ok_cookie t (i != 0) s (by rw [heq])
      rw [heq] at this
      simp [hnone] at this
    · split at hx
      · simp at hx
      · split at hx <;> simp at hx

/-- The retry loop never panics with the cookie-missing message, whatever
the remaining fuel. -/
lemma requestFrom_no_cookie_panic (t : Transport) :
    ∀ (fuel i : Nat) (s : Sess),
      (Qbit.requestFrom t i fuel s).1 ≠ .panic "Cookie should be set after login" := by
  intro fuel
  induction fuel with
  | zero =>
    intro i s h
    simp [Qbit.requestFrom] at h
  | succ n ih =>
    intro i s h
    rw [Qbit.requestFrom] at h
    rcases hx : Qbit.requestIter t i s with ⟨out, s1⟩
    rw [hx] at h
    cases out with
    | retry => exact ih (i + 1) s1 h
    | done r =>
      have hr : r = RustResult.panic "Cookie should be set after login" := h
      have hmsg := requestIter_panic_msg t i s _ (by rw [hx, hr])
      exact absurd hmsg (by decide)

/-- C9: whenever `login` returns `Ok` (any force flag, any starting state),
the resulting session state carries a token (`as_cookie` is `some`);
consequently the `expect("Cookie should be set after login")` in `request`
can never fire: `request` never panics with that message. -/
theorem c9_login_ok_implies_cookie (t : Transport) (fo : Bool) (s : Sess)
    (h : (Qbit.login t fo s).1 = .ok ()) :
    (((Qbit.login t fo s).2).state.as_cookie).isSome = true ∧
    ∀ s2 : Sess, (Qbit.request t s2).1 ≠ .panic "Cookie should be set after login" :=
  ⟨login_ok_cookie t fo s h, fun s2 => requestFrom_no_cookie_panic t 3 0 s2⟩

/-- Witness for C9: a successful forced login from a credential state. -/
theorem c9_witness :
    ((Qbit.login ⟨fun _ => .ok ⟨200, some "SID=1"⟩, fun _ => .ok ⟨200, none⟩⟩ true
        (Sess.init (.NotLoggedIn ⟨"u", "p"⟩))).2.state.as_cookie).isSome = true :=
  (c9_login_ok_implies_cookie ⟨fun _ => .ok ⟨200, some "SID=1"⟩, fun _ => .ok ⟨200, none⟩⟩
    true (Sess.init (.NotLoggedIn ⟨"u", "p"⟩)) (by decide)).1

/-- A successful network login: one call, token recorded via `add_cookie`,
force flag traced. -/
lemma login_net_ok (t : Transport) (fo : Bool) (s : Sess) (c : Credential)
    (r : Response) (ck : String)
    (hfo : (fo || ((s.state.as_cookie)).isNone) = true)
    (hcred : s.state.as_credential = some c)
    (hr : t.loginResp s.loginCalls = .ok r)
    (hs : isSuccess r.status = true)
    (hck : r.setCookie = some ck)
    (hascii : ck.data.all isVisibleAscii = true) :
    Qbit.login t fo s = (.ok (),
      ⟨s.state.add_cookie ck, s.loginForces ++ [fo], s.loginCalls + 1, s.httpCalls⟩) := by
  simp [Qbit.login, hfo, hcred, hr, Response.map_status, hs, Cookie.from_response, hck, hascii]

/-- A loop iteration whose login succeeds and whose HTTP call returns 403
retries, consuming one HTTP call. -/
lemma iter_with_403 (t : Transport) (i : Nat) (s s1 : Sess) (r : Response)
    (hlog : Qbit.login t (i != 0) s = (.ok (), s1))
    (hcook : ((s1.state.as_cookie)).isSome = true)
    (hr : t.reqResp s1.httpCalls = .ok r)
    (h403 : r.status = 403) :
    Qbit.requestIter t i s = (.retry, { s1 with httpCalls := s1.httpCalls + 1 }) := by
  obtain ⟨ck, hck⟩ := Option.isSome_iff_exists.mp hcook
  simp [Qbit.requestIter, hlog, hck, hr, Response.map_status, isSuccess, h403]

/-- C1: against a transport whose main HTTP call returns status 403 on
every attempt (and whose login endpoint issues session tokens normally),
`request` started from a freshly constructed credential-bearing client
performs exactly 3 attempts (3 HTTP calls), invoking `login` with
force = false on attempt 0 and force = true on attempts 1 and 2, and then
returns the `NotLoggedIn` error; no 4th attempt is performed. -/
theorem c1_bounded_retry (t : Transport) (st : LoginState)
    (hst : (st.as_credential).isSome = true)
    (hlog : ∀ i, ∃ r ck, t.loginResp i = .ok r ∧ isSuccess r.status = true ∧
      r.setCookie = some ck ∧ ck.data.all isVisibleAscii = true)
    (hreq : ∀ i, ∃ r, t.reqResp i = .ok r ∧ r.status = 403) :
    (Qbit.request t (Sess.init st)).1 = .err (.ApiError .NotLoggedIn) ∧
    (Qbit.request t (Sess.init st)).2.httpCalls = 3 ∧
    (Qbit.request t (Sess.init st)).2.loginForces = [false, true, true] := by
  obtain ⟨q0, hq0, h4_0⟩ := hreq 0
  obtain ⟨q1, hq1, h4_1⟩ := hreq 1
  obtain ⟨q2, hq2, h4_2⟩ := hreq 2
  cases st with
  | CookieProvided ck => simp [LoginState.as_credential] at hst
  | NotLoggedIn c =>
    obtain ⟨l0, k0, hl0, hs0, hc0, ha0⟩ := hlog 0
    obtain ⟨l1, k1, hl1, hs1, hc1, ha1⟩ := hlog 1
    obtain ⟨l2, k2, hl2, hs2, hc2, ha2⟩ := hlog 2
    have hL0 := login_net_ok t false ⟨.NotLoggedIn c, [], 0, 0⟩ c l0 k0 rfl rfl hl0 hs0 hc0 ha0
    have hI0 := iter_with_403 t 0 ⟨.NotLoggedIn c, [], 0, 0⟩
      ⟨.LoggedIn k0 c, [false], 1, 0⟩ q0 hL0 rfl hq0 h4_0
    have hL1 := login_net_ok t true ⟨.LoggedIn k0 c, [false], 1, 1⟩ c l1 k1 rfl rfl hl1 hs1 hc1 ha1
    have hI1 := iter_with_403 t 1 ⟨.LoggedIn k0 c, [false], 1, 1⟩
      ⟨.LoggedIn k1 c, [false, true], 2, 1⟩ q1 hL1 rfl hq1 h4_1
    have hL2 := login_net_ok t true ⟨.LoggedIn k1 c, [false, true], 2, 2⟩ c l2 k2 rfl rfl hl2 hs2 hc2 ha2
    have hI2 := iter_with_403 t 2 ⟨.LoggedIn k1 c, [false, true], 2, 2⟩
      ⟨.LoggedIn k2 c, [false, true, true], 3, 2⟩ q2 hL2 rfl hq2 h4_2
    simp [Qbit.request, Qbit.requestFrom, Sess.init, hI0, hI1, hI2]
  | LoggedIn ck0 c =>
    obtain ⟨l0, k0, hl0, hs0, hc0, ha0⟩ := hlog 0
    obtain ⟨l1, k1, hl1, hs1, hc1, ha1⟩ := hlog 1
    have hL0 : Qbit.login t false ⟨.LoggedIn ck0 c, [], 0, 0⟩
        = (.ok (), ⟨.LoggedIn ck0 c, [false], 0, 0⟩) := by
      simp [Qbit.login, LoginState.as_cookie]
    have hI0 := iter_with_403 t 0 ⟨.LoggedIn ck0 c, [], 0, 0⟩
      ⟨.LoggedIn ck0 c, [false], 0, 0⟩ q0 hL0 rfl hq0 h4_0
    have hL1 := login_net_ok t true ⟨.LoggedIn ck0 c, [false], 0, 1⟩ c l0 k0 rfl rfl hl0 hs0 hc0 ha0
    have hI1 := iter_with_403 t 1 ⟨.LoggedIn ck0 c, [false], 0, 1⟩
      ⟨.LoggedIn k0 c, [false, true], 1, 1⟩ q1 hL1 rfl hq1 h4_1
    have hL2 := login_net_ok t true ⟨.LoggedIn k0 c, [false, true], 1, 2⟩ c l1 k1 rfl rfl hl1 hs1 hc1 ha1
    have hI2 := iter_with_403 t 2 ⟨.LoggedIn k0 c, [false, true], 1, 2⟩
      ⟨.LoggedIn k1 c, [false, true, true], 2, 2⟩ q2 hL2 rfl hq2 h4_2
    simp [Qbit.request, Qbit.requestFrom, Sess.init, hI0, hI1, hI2]

/-- Witness for C1: a concrete always-403 transport and a fresh
credential-bearing client. -/
theorem c1_witness :
    (Qbit.request ⟨fun _ => .ok ⟨200, some "SID=1"⟩, fun _ => .ok ⟨403, none⟩⟩
        (Sess.init (.NotLoggedIn ⟨"u", "p"⟩))).1 = .err (.ApiError .NotLoggedIn) ∧
    (Qbit.request ⟨fun _ => .ok ⟨200, some "SID=1"⟩, fun _ => .ok ⟨403, none⟩⟩
        (Sess.init (.NotLoggedIn ⟨"u", "p"⟩))).2.httpCalls = 3 ∧
    (Qbit.request ⟨fun _ => .ok ⟨200, some "SID=1"⟩, fun _ => .ok ⟨403, none⟩⟩
        (Sess.init (.NotLoggedIn ⟨"u", "p"⟩))).2.loginForces = [false, true, true] :=
  c1_bounded_retry ⟨fun _ => .ok ⟨200, some "SID=1"⟩, fun _ => .ok ⟨403, none⟩⟩
    (.NotLoggedIn ⟨"u", "p"⟩) rfl
    (fun _ => ⟨⟨200, some "SID=1"⟩, "SID=1", rfl, by decide, rfl, by decide⟩)
    (fun _ => ⟨⟨403, none⟩, rfl, rfl⟩)

/-- The accumulator loop of `String.intercalate` is a left fold. -/
lemma intercalate_go_foldl (s a : String) (l : List String) :
    String.intercalate.go a s l = l.foldl (fun acc x => acc ++ s ++ x) a := by
  induction l generalizing a with
  | nil => rfl
  | cons x xs ih => simp [String.intercalate.go, List.foldl, ih]

/-- C10: the string rendering of `Sep` is the elements' renderings joined
with exactly one separator character between consecutive elements (n - 1
separators for n elements, as `String.intercalate` does), and the empty
vector renders as the empty string. -/
theorem c10_sep_display (showT : α → String) (c : Char) (l : List α) :
    Sep.display showT c l = String.intercalate (String.singleton c) (l.map showT) ∧
    Sep.display showT c ([] : List α) = "" := by
  refine ⟨?_, rfl⟩
  match l with
  | [] => rfl
  | [x] => simp [Sep.display, String.intercalate, intercalate_go_foldl]
  | x :: y :: ys =>
    simp [Sep.display, String.intercalate, intercalate_go_foldl, List.foldl_map]
